import Mathlib

/-!
Shallow embedding of the Atlassian-MCP command-line client
(`src/atlassian_mcp/client.py` and `src/atlassian_mcp/cli.py`).

Python strings are modelled as Lean `String`s, JSON payloads as the `Json`
inductive below, environment/files/stdin as explicit function arguments, and
the linear async control flow of each CLI command (where an exception aborts
the rest of the function body) as explicit traces respectively `Option`
results.
-/

/-! ## Python string primitives used by the code -/

/-- Whitespace characters stripped by Python's `str.strip()` (the ASCII ones;
the code only ever strips command-line text). -/
def pyIsSpace (c : Char) : Bool :=
  c == ' ' || c == '\t' || c == '\n' || c == '\r' || c == '\x0b' || c == '\x0c'

/-- Python `s.strip()`: remove leading and trailing whitespace. -/
def pyStrip (s : String) : String :=
  String.mk (((s.data.dropWhile pyIsSpace).reverse.dropWhile pyIsSpace).reverse)

/-- Python `s.startswith(p)`. -/
def pyStartsWith (s p : String) : Bool :=
  p.data.isPrefixOf s.data

/-- Contiguous-subsequence test on character lists, used to model Python's
`op in query` substring operator. -/
def containsSeq (needle : List Char) : List Char → Bool
  | [] => needle.isEmpty
  | h :: t => needle.isPrefixOf (h :: t) || containsSeq needle t

/-- Python `needle in hay` on strings. -/
def strContains (hay needle : String) : Bool :=
  containsSeq needle.data hay.data

theorem containsSeq_iff (n h : List Char) : containsSeq n h = true ↔ n <:+: h := by
  induction h with
  | nil => simp [containsSeq, List.isEmpty_iff]
  | cons a t ih =>
      simp [containsSeq, List.isPrefixOf_iff_prefix, ih, List.infix_cons_iff]

/-! ## JSON values and Python dict operations -/

/-- JSON payloads built by the client (objects keep insertion order, as Python
dicts do). -/
inductive Json where
  | str : String → Json
  | num : Int → Json
  | obj : List (String × Json) → Json
  | arr : List Json → Json

/-- Python `d.get(k)` on an object's field list (first binding wins). -/
def lookupField (l : List (String × Json)) (k : String) : Option Json :=
  (l.find? (fun p => p.1 == k)).map Prod.snd

/-- Python `j.get(k)` when `j` is a JSON object; `None` otherwise. -/
def Json.getField : Json → String → Option Json
  | Json.obj l, k => lookupField l k
  | _, _ => none

/-- Python truthiness of a JSON value (empty string/object/array and zero are
falsy). -/
def jsonTruthy : Json → Bool
  | Json.str s => !(s == "")
  | Json.num n => !(n == 0)
  | Json.obj l => !l.isEmpty
  | Json.arr l => !l.isEmpty

/-- Python `x or {}` applied to the result of a `.get(k)`: the empty object
when the field is absent or falsy. -/
def pyGetOrEmpty (j : Option Json) : Json :=
  match j with
  | some v => if jsonTruthy v then v else Json.obj []
  | none => Json.obj []

/-- Reading a JSON value as a Python `int`; `none` models the `TypeError` that
integer arithmetic on any other value would raise. -/
def jsonAsInt : Json → Option Int
  | Json.num n => some n
  | _ => none

/-- Python `base.update(upd)` on dicts: existing keys keep their position and
take `upd`'s value, new keys are appended in `upd`'s order. -/
def dictUpdate (base upd : List (String × Json)) : List (String × Json) :=
  (base.map (fun p =>
    match upd.find? (fun q => q.1 == p.1) with
    | some q => (p.1, q.2)
    | none => p))
  ++ upd.filter (fun q => !(base.any (fun p => p.1 == q.1)))

/-! ## client.py: AtlassianConfig -/

/-- Configuration record built by `AtlassianConfig.__init__`. -/
structure AtlassianConfig where
  base_url : String
  email : String
  api_token : String
  timeout : Int

/-- Python `os.getenv(k, d)` over an explicit environment. -/
def getenvD (env : String → Option String) (k d : String) : String :=
  (env k).getD d

/-- Python `s.rstrip("/")`. -/
def rstripSlash (s : String) : String :=
  String.mk ((s.data.reverse.dropWhile (fun c => c == '/')).reverse)

/-- Value of a non-empty, all-digit character list in base 10. -/
def digitsToNat (ds : List Char) : Option Nat :=
  if ds.isEmpty then none
  else if ds.all (fun c => c.isDigit) then
    some (ds.foldl (fun acc c => 10 * acc + (c.toNat - '0'.toNat)) 0)
  else none

/-- Python `int(s)` on a decimal string: surrounding whitespace and an
optional sign are accepted, anything else raises (`none`). -/
def pyInt (s : String) : Option Int :=
  match (pyStrip s).data with
  | '-' :: ds => (digitsToNat ds).map (fun n => -(n : Int))
  | '+' :: ds => (digitsToNat ds).map (fun n => (n : Int))
  | ds => (digitsToNat ds).map (fun n => (n : Int))

/-- `AtlassianConfig.__init__`: reads the four environment variables, parses
the timeout with `int(...)` (a parse failure raises first), then raises a
`ValueError` naming every missing mandatory variable; `Except.error` carries
the exception message. -/
def mkAtlassianConfig (env : String → Option String) : Except String AtlassianConfig :=
  let base_url := rstripSlash (getenvD env "ATLASSIAN_BASE_URL" "https://lululemon.atlassian.net")
  let email := getenvD env "ATLASSIAN_EMAIL" ""
  let api_token := getenvD env "ATLASSIAN_API_TOKEN" ""
  match pyInt (getenvD env "ATLASSIAN_TIMEOUT" "30") with
  | none => Except.error "invalid literal for int()"
  | some timeout =>
    let missing :=
      (if email == "" then ["ATLASSIAN_EMAIL"] else [])
      ++ (if api_token == "" then ["ATLASSIAN_API_TOKEN"] else [])
    if missing.isEmpty then
      Except.ok { base_url := base_url, email := email, api_token := api_token, timeout := timeout }
    else
      Except.error ("Missing required Atlassian env vars: "
        ++ String.intercalate ", " missing ++ ". Please add them to your .env file.")

/-! ## client.py: Jira methods -/

/-- Default field list of `AtlassianClient.search_issues`. -/
def default_fields : List String :=
  ["summary", "status", "assignee", "reporter",
   "priority", "issuetype", "created", "updated", "labels"]

/-- Python `fields or default_fields` (`None` and the empty list are falsy). -/
def fieldsOrDefault (fields : Option (List String)) : List String :=
  match fields with
  | some l => if l.isEmpty then default_fields else l
  | none => default_fields

/-- Query parameters built by `AtlassianClient.search_issues`, after the
`max_results > 100` cap. -/
def search_issues_params (jql : String) (fields : Option (List String))
    (max_results : Int) (start_at : Int) : List (String × String) :=
  let max_results := if max_results > 100 then 100 else max_results
  [("jql", jql),
   ("maxResults", toString max_results),
   ("startAt", toString start_at),
   ("fields", String.intercalate "," (fieldsOrDefault fields))]

/-- Python `params.get(k)` on a string-valued query-parameter dict. -/
def lookupParam (l : List (String × String)) (k : String) : Option String :=
  (l.find? (fun p => p.1 == k)).map Prod.snd

/-- The `description` argument of `create_issue`: the CLI passes a string (or
`None`), but the method also accepts an already-built document dict. -/
inductive DescriptionArg where
  | text : String → DescriptionArg
  | adf : Json → DescriptionArg

/-- Python truthiness of the optional `description` argument. -/
def descTruthy : Option DescriptionArg → Bool
  | none => false
  | some (DescriptionArg.text s) => !(s == "")
  | some (DescriptionArg.adf j) => jsonTruthy j

/-- The Atlassian-document value `create_issue` builds for a string
description. -/
def descriptionADF (description : String) : Json :=
  Json.obj
    [("version", Json.num 1),
     ("type", Json.str "doc"),
     ("content", Json.arr
       [Json.obj
         [("type", Json.str "paragraph"),
          ("content", Json.arr
            [Json.obj [("type", Json.str "text"), ("text", Json.str description)]])]])]

/-- The `fields_payload` dict built by `AtlassianClient.create_issue`. -/
def create_issue_fields (project_key summary issue_type : String)
    (description : Option DescriptionArg) (priority : Option String)
    (labels : Option (List String)) (assignee_account_id : Option String)
    (extra_fields : Option (List (String × Json))) : List (String × Json) :=
  let base : List (String × Json) :=
    [("project", Json.obj [("key", Json.str project_key)]),
     ("summary", Json.str summary),
     ("issuetype", Json.obj [("name", Json.str issue_type)])]
  let base :=
    if descTruthy description then
      match description with
      | some (DescriptionArg.text d) => base ++ [("description", descriptionADF d)]
      | some (DescriptionArg.adf j) => base ++ [("description", j)]
      | none => base
    else base
  let base :=
    match priority with
    | some p => if p == "" then base else base ++ [("priority", Json.obj [("name", Json.str p)])]
    | none => base
  let base :=
    match labels with
    | some l => if l.isEmpty then base else base ++ [("labels", Json.arr (l.map Json.str))]
    | none => base
  let base :=
    match assignee_account_id with
    | some a => if a == "" then base
                else base ++ [("assignee", Json.obj [("accountId", Json.str a)])]
    | none => base
  match extra_fields with
  | some ex => if ex.isEmpty then base else dictUpdate base ex
  | none => base

/-- The request body `create_issue` posts: `{"fields": fields_payload}`. -/
def create_issue_payload (project_key summary issue_type : String)
    (description : Option DescriptionArg) (priority : Option String)
    (labels : Option (List String)) (assignee_account_id : Option String)
    (extra_fields : Option (List (String × Json))) : Json :=
  Json.obj [("fields", Json.obj (create_issue_fields project_key summary issue_type
    description priority labels assignee_account_id extra_fields))]

/-! ## client.py: Confluence methods -/

/-- The operator list `search_confluence` scans the query for. -/
def cql_ops : List String := ["=", "~", "AND", "OR", "IN"]

/-- Python `any(op in query for op in ["=", "~", "AND", "OR", "IN"])`. -/
def queryIsCql (query : String) : Bool :=
  cql_ops.any (fun op => strContains query op)

/-- The CQL string `AtlassianClient.search_confluence` builds from the query
and the optional space filter. -/
def search_confluence_cql (query : String) (space_key : Option String) : String :=
  let cql_parts : List String := ["type = \"page\""]
  let cql_parts :=
    match space_key with
    | some k => if k == "" then cql_parts else cql_parts ++ ["space = \"" ++ k ++ "\""]
    | none => cql_parts
  let cql_parts :=
    cql_parts ++
      [if queryIsCql query then "(" ++ query ++ ")" else "text ~ \"" ++ query ++ "\""]
  String.intercalate " AND " cql_parts

/-- Request body of `AtlassianClient.create_confluence_page`. -/
def create_confluence_page_payload (space_key title body_html : String)
    (parent_id : Option String) : Json :=
  let payload : List (String × Json) :=
    [("type", Json.str "page"),
     ("title", Json.str title),
     ("space", Json.obj [("key", Json.str space_key)]),
     ("body", Json.obj [("storage", Json.obj
       [("value", Json.str body_html), ("representation", Json.str "storage")])])]
  match parent_id with
  | some pid =>
      if pid == "" then Json.obj payload
      else Json.obj (payload ++ [("ancestors", Json.arr [Json.obj [("id", Json.str pid)]])])
  | none => Json.obj payload

/-- Request body of `AtlassianClient.update_confluence_page`. -/
def update_confluence_page_payload (title body_html : String) (version_number : Int) : Json :=
  Json.obj
    [("type", Json.str "page"),
     ("title", Json.str title),
     ("version", Json.obj [("number", Json.num version_number)]),
     ("body", Json.obj [("storage", Json.obj
       [("value", Json.str body_html), ("representation", Json.str "storage")])])]

/-- Request body of `AtlassianClient.add_confluence_comment`. -/
def add_confluence_comment_payload (page_id body_html : String) : Json :=
  Json.obj
    [("type", Json.str "comment"),
     ("container", Json.obj [("id", Json.str page_id), ("type", Json.str "page")]),
     ("body", Json.obj [("storage", Json.obj
       [("value", Json.str body_html), ("representation", Json.str "storage")])])]

/-! ## cli.py: helpers and commands -/

/-- `_resolve_text` from cli.py: a given file path overrides the inline text,
the path `-` reads stdin, otherwise the file's contents are read; with no file
path the inline text (possibly `None`) is returned. The file system and stdin
are passed explicitly. -/
def resolve_text (inline : Option String) (file_path : Option String)
    (stdin : String) (fileContents : String → String) : Option String :=
  match file_path with
  | some p => if p == "-" then some stdin else some (fileContents p)
  | none => inline

/-- The body/comment wrapping step shared by `cmd_confluence_create`,
`cmd_confluence_update` and `cmd_confluence_comment`:
`if not body.strip().startswith("<"): body = "<p>" + body + "</p>"`. -/
def wrapInParagraph (body : String) : String :=
  if !(pyStartsWith (pyStrip body) "<") then "<p>" ++ body ++ "</p>" else body

/-- `current_version` as computed by `cmd_confluence_update` from the page
returned by the read: `(current.get("version") or {}).get("number", 1)`,
`none` when the resulting value is not an integer (the `+ 1` would raise). -/
def cmd_confluence_update_currentVersion (current : Json) : Option Int :=
  jsonAsInt (((pyGetOrEmpty (current.getField "version")).getField "number").getD (Json.num 1))

/-- The PUT body `cmd_confluence_update` sends, as a function of the page JSON
returned by the preceding read: body wrapped when needed, version field set to
`current_version + 1`. -/
def cmd_confluence_update_putPayload (title body : String) (current : Json) : Option Json :=
  (cmd_confluence_update_currentVersion current).map
    (fun v => update_confluence_page_payload title (wrapInParagraph body) (v + 1))

/-- Externally visible steps of a CLI command, in program order. -/
inductive CmdAction where
  | initClient : CmdAction
  | httpGet : CmdAction
  | httpPut : CmdAction
  | printOutput : CmdAction
  | closeClient : CmdAction
deriving DecidableEq

/-- Straight-line trace of `cmd_jira_search`: initialize, one GET
(`search_issues`), print, close. A raising remote call aborts the rest of the
function body (the exception propagates to `main`'s top-level handler). -/
def cmd_jira_search_trace (searchRaises : Bool) : List CmdAction :=
  let t := [CmdAction.initClient, CmdAction.httpGet]
  if searchRaises then t
  else t ++ [CmdAction.printOutput, CmdAction.closeClient]

/-- Straight-line trace of `cmd_confluence_update`: initialize, GET the page,
PUT the update, print, close; either remote call may raise and abort the rest
of the function body. -/
def cmd_confluence_update_trace (readRaises writeRaises : Bool) : List CmdAction :=
  let t := [CmdAction.initClient, CmdAction.httpGet]
  if readRaises then t
  else
    let t := t ++ [CmdAction.httpPut]
    if writeRaises then t
    else t ++ [CmdAction.printOutput, CmdAction.closeClient]

/-! ## Claims -/

/-- Claim C1: for every confluence-update invocation, the write request's
version number equals the version number returned by the preceding read of
the same page plus one: if the read response carries version `v`, the PUT
payload built by `cmd_confluence_update` carries version `v + 1`. -/
theorem confluence_update_sends_read_version_plus_one
    (title body : String) (current : Json) (v : Int)
    (hread : (pyGetOrEmpty (current.getField "version")).getField "number" = some (Json.num v)) :
    cmd_confluence_update_putPayload title body current
      = some (update_confluence_page_payload title (wrapInParagraph body) (v + 1))
    ∧ (update_confluence_page_payload title (wrapInParagraph body) (v + 1)).getField "version"
      = some (Json.obj [("number", Json.num (v + 1))]) := by
  constructor
  · simp [cmd_confluence_update_putPayload, cmd_confluence_update_currentVersion, hread, jsonAsInt]
  · rfl

/-- Witness for C1: a read returning version 5 produces a write with
version 6. -/
theorem confluence_update_version_witness :
    cmd_confluence_update_putPayload "T" "hello"
        (Json.obj [("version", Json.obj [("number", Json.num 5)])])
      = some (update_confluence_page_payload "T" (wrapInParagraph "hello") 6)
    ∧ (update_confluence_page_payload "T" (wrapInParagraph "hello") 6).getField "version"
      = some (Json.obj [("number", Json.num 6)]) :=
  confluence_update_sends_read_version_plus_one "T" "hello"
    (Json.obj [("version", Json.obj [("number", Json.num 5)])]) 5 rfl

/-- Counterexample to claim C2: when the remote search call raises, the
close step of `cmd_jira_search` never runs (there is no `try`/`finally`
around the command body), so the connection is not released on the failure
path. -/
theorem close_skipped_when_search_raises :
    CmdAction.closeClient ∉ cmd_jira_search_trace true := by decide

/-- Claim C2 as amended: the client is closed at the end of a command on the
success path only; on every failure path the raising remote call aborts the
rest of the command body and the close step does not run (the exception
propagates to the top-level handler and the process exits). Shown
exhaustively for all success/failure paths of `cmd_jira_search` and
`cmd_confluence_update`. -/
theorem close_client_runs_only_on_success :
    (CmdAction.closeClient ∈ cmd_jira_search_trace false)
    ∧ (CmdAction.closeClient ∉ cmd_jira_search_trace true)
    ∧ (CmdAction.closeClient ∈ cmd_confluence_update_trace false false)
    ∧ (CmdAction.closeClient ∉ cmd_confluence_update_trace true false)
    ∧ (CmdAction.closeClient ∉ cmd_confluence_update_trace false true)
    ∧ (CmdAction.closeClient ∉ cmd_confluence_update_trace true true) := by
  decide

/-- Counterexample to claim C3: the wrapping decision is made on the
stripped string, not on the string itself. The body `"  <p>hi</p>"` does not
start with `<`, yet it is passed through unchanged instead of being wrapped
in a paragraph tag. -/
theorem wrap_untrimmed_prefix_counterexample :
    ¬ (pyStartsWith "  <p>hi</p>" "<" = false →
        wrapInParagraph "  <p>hi</p>" = "<p>" ++ "  <p>hi</p>" ++ "</p>") := by
  decide

/-- Claim C3 as amended: for the body/comment wrapping step shared by
confluence-create, confluence-update and confluence-comment, if the string
stripped of surrounding whitespace does not start with `<` the (original,
unstripped) string is wrapped in a single paragraph tag, and if the stripped
string starts with `<` the string is passed through unchanged. -/
theorem wrap_decided_on_stripped_string (body : String) :
    (pyStartsWith (pyStrip body) "<" = false →
      wrapInParagraph body = "<p>" ++ body ++ "</p>")
    ∧ (pyStartsWith (pyStrip body) "<" = true → wrapInParagraph body = body) := by
  constructor
  · intro h
    simp [wrapInParagraph, h]
  · intro h
    simp [wrapInParagraph, h]

/-- Witness for the amended C3: a plain-text body is wrapped, a markup body
is passed through unchanged. -/
theorem wrap_decided_on_stripped_string_witness :
    wrapInParagraph "hello" = "<p>" ++ "hello" ++ "</p>"
    ∧ wrapInParagraph " <b>x</b>" = " <b>x</b>" :=
  ⟨(wrap_decided_on_stripped_string "hello").1 (by decide),
   (wrap_decided_on_stripped_string " <b>x</b>").2 (by decide)⟩

/-- Claim C4: confluence-search with the query `foo bar` (no CQL operators)
and no space filter builds exactly the CQL string
`type = "page" AND text ~ "foo bar"`, and with the query `space = X` it
builds exactly `type = "page" AND (space = X)`. -/
theorem confluence_search_cql_scenarios :
    search_confluence_cql "foo bar" none = "type = \"page\" AND text ~ \"foo bar\""
    ∧ search_confluence_cql "space = X" none = "type = \"page\" AND (space = X)" := by
  decide

/-- Claim C5: for every jira-search invocation with a requested maximum
above 100, the maxResults value actually sent in the request is 100. -/
theorem jira_search_max_results_capped
    (jql : String) (fields : Option (List String)) (m s : Int) (h : m > 100) :
    lookupParam (search_issues_params jql fields m s) "maxResults" = some "100" := by
  simp [search_issues_params, lookupParam, List.find?, if_pos h]
  rfl

/-- Witness for C5: a requested maximum of 150 is sent as 100. -/
theorem jira_search_max_results_capped_witness :
    lookupParam (search_issues_params "project = RFID" none 150 0) "maxResults" = some "100" :=
  jira_search_max_results_capped "project = RFID" none 150 0 (by decide)

/-- Claim C6: for every non-empty plain-string description passed to issue
creation, the transmitted description field is a structured document of type
`doc` whose content is exactly one paragraph node containing exactly one text
node whose text equals the input string verbatim. -/
theorem create_issue_plain_description_single_paragraph
    (project_key summary issue_type d : String) (priority : Option String)
    (labels : Option (List String)) (assignee_account_id : Option String)
    (hd : d ≠ "") :
    lookupField
        (create_issue_fields project_key summary issue_type
          (some (DescriptionArg.text d)) priority labels assignee_account_id none)
        "description"
      = some (Json.obj
          [("version", Json.num 1),
           ("type", Json.str "doc"),
           ("content", Json.arr
             [Json.obj
               [("type", Json.str "paragraph"),
                ("content", Json.arr
                  [Json.obj [("type", Json.str "text"), ("text", Json.str d)]])]])]) := by
  have hT : descTruthy (some (DescriptionArg.text d)) = true := by
    simp [descTruthy, hd]
  rcases priority with _ | p <;> rcases labels with _ | l <;>
    rcases assignee_account_id with _ | a <;>
    simp only [create_issue_fields, hT, if_true] <;>
    first
      | rfl
      | (split_ifs <;> rfl)

/-- Witness for C6: a concrete plain description is transmitted as a
one-paragraph, one-text-node document carrying the input verbatim. -/
theorem create_issue_plain_description_witness :
    lookupField
        (create_issue_fields "RFID" "Fix reader" "Bug"
          (some (DescriptionArg.text "scanner drops tags")) none none none none)
        "description"
      = some (Json.obj
          [("version", Json.num 1),
           ("type", Json.str "doc"),
           ("content", Json.arr
             [Json.obj
               [("type", Json.str "paragraph"),
                ("content", Json.arr
                  [Json.obj [("type", Json.str "text"),
                             ("text", Json.str "scanner drops tags")]])]])]) :=
  create_issue_plain_description_single_paragraph "RFID" "Fix reader" "Bug"
    "scanner drops tags" none none none (by decide)

/-- Claim C7: exactly one text source wins in `_resolve_text`: a given file
path overrides the inline text, the file path `-` reads standard input, and
with no file path the inline text (possibly absent) is returned. -/
theorem resolve_text_precedence
    (inline : Option String) (stdin : String) (fileContents : String → String)
    (p : String) (hp : p ≠ "-") :
    resolve_text inline (some p) stdin fileContents = some (fileContents p)
    ∧ resolve_text inline (some "-") stdin fileContents = some stdin
    ∧ resolve_text inline none stdin fileContents = inline := by
  refine ⟨?_, rfl, rfl⟩
  simp [resolve_text, hp]

/-- Witness for C7: with both inline text and a file path given, the file
wins; with path `-` stdin wins; with no path the inline text is returned. -/
theorem resolve_text_precedence_witness :
    resolve_text (some "inline text") (some "notes.html") "stdin text"
        (fun _ => "file text") = some "file text"
    ∧ resolve_text (some "inline text") (some "-") "stdin text"
        (fun _ => "file text") = some "stdin text"
    ∧ resolve_text (some "inline text") none "stdin text"
        (fun _ => "file text") = some "inline text" :=
  resolve_text_precedence (some "inline text") "stdin text"
    (fun _ => "file text") "notes.html" (by decide)

/-- Claim C8: if the account email or the API token environment variable is
empty or absent, configuration construction fails with an error naming each
missing variable (construction is pure, so this happens before any network
call); if both are present, construction succeeds with the read values. -/
theorem config_requires_email_and_token
    (env : String → Option String) (t : Int)
    (ht : pyInt (getenvD env "ATLASSIAN_TIMEOUT" "30") = some t) :
    ((getenvD env "ATLASSIAN_EMAIL" "" = "" ∨ getenvD env "ATLASSIAN_API_TOKEN" "" = "") →
      ∃ msg, mkAtlassianConfig env = Except.error msg
        ∧ (getenvD env "ATLASSIAN_EMAIL" "" = "" → strContains msg "ATLASSIAN_EMAIL" = true)
        ∧ (getenvD env "ATLASSIAN_API_TOKEN" "" = "" → strContains msg "ATLASSIAN_API_TOKEN" = true))
    ∧ (getenvD env "ATLASSIAN_EMAIL" "" ≠ "" → getenvD env "ATLASSIAN_API_TOKEN" "" ≠ "" →
        mkAtlassianConfig env = Except.ok
          { base_url := rstripSlash (getenvD env "ATLASSIAN_BASE_URL" "https://lululemon.atlassian.net"),
            email := getenvD env "ATLASSIAN_EMAIL" "",
            api_token := getenvD env "ATLASSIAN_API_TOKEN" "",
            timeout := t }) := by
  constructor
  · intro hmiss
    by_cases he : getenvD env "ATLASSIAN_EMAIL" "" = "" <;>
      by_cases hk : getenvD env "ATLASSIAN_API_TOKEN" "" = ""
    · refine ⟨"Missing required Atlassian env vars: ATLASSIAN_EMAIL, ATLASSIAN_API_TOKEN. Please add them to your .env file.",
        ?_, fun _ => by decide, fun _ => by decide⟩
      simp [mkAtlassianConfig, ht, he, hk]
      rfl
    · refine ⟨"Missing required Atlassian env vars: ATLASSIAN_EMAIL. Please add them to your .env file.",
        ?_, fun _ => by decide, fun hkk => absurd hkk hk⟩
      simp [mkAtlassianConfig, ht, he, hk]
      rfl
    · refine ⟨"Missing required Atlassian env vars: ATLASSIAN_API_TOKEN. Please add them to your .env file.",
        ?_, fun hee => absurd hee he, fun _ => by decide⟩
      simp [mkAtlassianConfig, ht, he, hk]
      rfl
    · rcases hmiss with h | h
      · exact absurd h he
      · exact absurd h hk
  · intro he hk
    simp [mkAtlassianConfig, ht, he, hk]

/-- Witness for C8: with an empty environment both mandatory variables are
missing and construction fails with a message naming both. -/
theorem config_requires_email_and_token_witness :
    (getenvD (fun _ => none) "ATLASSIAN_EMAIL" "" = ""
      ∨ getenvD (fun _ => none) "ATLASSIAN_API_TOKEN" "" = "")
    ∧ ∃ msg, mkAtlassianConfig (fun _ => none) = Except.error msg
        ∧ strContains msg "ATLASSIAN_EMAIL" = true
        ∧ strContains msg "ATLASSIAN_API_TOKEN" = true := by
  have h := config_requires_email_and_token (fun _ => none) 30 rfl
  obtain ⟨msg, hm, h1, h2⟩ := h.1 (Or.inl rfl)
  exact ⟨Or.inl rfl, msg, hm, h1 rfl, h2 rfl⟩

/-- Claim C9: calling create_issue with an empty-string description behaves
exactly like calling it with no description: the fields payload is identical
and carries no description key at all. -/
theorem create_issue_empty_description_like_none
    (project_key summary issue_type : String) (priority : Option String)
    (labels : Option (List String)) (assignee_account_id : Option String) :
    create_issue_fields project_key summary issue_type
        (some (DescriptionArg.text "")) priority labels assignee_account_id none
      = create_issue_fields project_key summary issue_type
          none priority labels assignee_account_id none
    ∧ lookupField
        (create_issue_fields project_key summary issue_type
          none priority labels assignee_account_id none) "description" = none := by
  constructor
  · rfl
  · rcases priority with _ | p <;> rcases labels with _ | l <;>
      rcases assignee_account_id with _ | a <;>
      simp only [create_issue_fields] <;>
      first
        | rfl
        | (split_ifs <;> rfl)

/-- Witness for C9: a concrete call with the empty-string description equals
the same call without a description, and the payload has no description key. -/
theorem create_issue_empty_description_witness :
    create_issue_fields "RFID" "Fix reader" "Task"
        (some (DescriptionArg.text "")) none none none none
      = create_issue_fields "RFID" "Fix reader" "Task" none none none none none
    ∧ lookupField
        (create_issue_fields "RFID" "Fix reader" "Task" none none none none none)
        "description" = none :=
  create_issue_empty_description_like_none "RFID" "Fix reader" "Task" none none none

/-- Claim C10: the decision whether a confluence-search query is treated as
raw CQL is a case-sensitive substring test: the query is parenthesized and
appended as CQL exactly when one of `=`, `~`, `AND`, `OR`, `IN` occurs
anywhere in its text, including inside ordinary words such as `ORDER` or
`ANDROID`, and only otherwise is it wrapped as `text ~ "query"`. -/
theorem confluence_cql_operator_detection :
    (∀ q : String, queryIsCql q = true ↔
      ("=".data <:+: q.data ∨ "~".data <:+: q.data ∨ "AND".data <:+: q.data
        ∨ "OR".data <:+: q.data ∨ "IN".data <:+: q.data))
    ∧ queryIsCql "ORDER" = true
    ∧ queryIsCql "ANDROID" = true
    ∧ queryIsCql "order by newest" = false
    ∧ (∀ q : String, search_confluence_cql q none =
        if queryIsCql q then "type = \"page\" AND " ++ ("(" ++ q ++ ")")
        else "type = \"page\" AND " ++ ("text ~ \"" ++ q ++ "\"")) := by
  refine ⟨?_, by decide, by decide, by decide, ?_⟩
  · intro q
    simp [queryIsCql, cql_ops, strContains, containsSeq_iff]
  · intro q
    cases hq : queryIsCql q
    · simp only [search_confluence_cql, hq, Bool.false_eq_true, if_false]
      rfl
    · simp only [search_confluence_cql, hq, if_true]
      rfl

/-- Witness for C10: the word `ANDROID` alone is treated as CQL and
parenthesized. -/
theorem confluence_cql_operator_detection_witness :
    queryIsCql "ANDROID" = true
    ∧ search_confluence_cql "ANDROID" none = "type = \"page\" AND " ++ ("(" ++ "ANDROID" ++ ")") :=
  ⟨confluence_cql_operator_detection.2.2.1,
   (confluence_cql_operator_detection.2.2.2.2 "ANDROID").trans (by decide)⟩
